import Mathlib

/-!
Verification development for the feature_level_report repository.

The algorithmic core is the Rust function `count_aligned_bases` in
src/main.rs: it walks the CIGAR operations extracted by the regex
`(\d+)([MIDNSHP=X])` while tracking a cursor in query space (direction
depends on strand) and target space (always forward), intersects each
operation span with the feature interval in the relevant space(s), and
accumulates aligned / not-aligned / indel counters; the two ignored
counters are derived at the end.  `main` parses tab-separated lines,
skips records with mismatched names or inconsistent strands, and prints
one row per accepted record.

The definitions below are a shallow embedding of that code: machine
integers (i64) become `Int`, the regex scan becomes a structural scanner
over the character list, panics become a `fatal` outcome, and the
per-line loop of `main` becomes a recursive function over the list of
lines.
-/

namespace FeatureLevelReport

/-- Characters of the regex character class [MIDNSHP=X] in
`count_aligned_bases`. -/
def isCigarOpChar (c : Char) : Bool :=
  c = 'M' || c = 'I' || c = 'D' || c = 'N' || c = 'S' || c = 'H' || c = 'P' || c = '=' || c = 'X'

/-- Scanner equivalent to iterating the matches of the regex
`(\d+)([MIDNSHP=X])` over the string (Rust `captures_iter`): a maximal
digit run immediately followed by an operation character yields one
`(length, op)` pair; any other character is skipped, discarding a
pending digit run that is not followed by an operation character.
The accumulator holds the value of the digit run read so far. -/
def scanCigar : Option Nat → List Char → List (Nat × Char)
  | _, [] => []
  | acc, c :: rest =>
    if c.isDigit then
      scanCigar (some ((acc.getD 0) * 10 + (c.toNat - '0'.toNat))) rest
    else
      match acc with
      | some n =>
        if isCigarOpChar c then (n, c) :: scanCigar none rest
        else scanCigar none rest
      | none => scanCigar none rest

/-- All `(length, op)` pairs the regex `(\d+)([MIDNSHP=X])` finds in the
CIGAR string, in left-to-right order. -/
def parse_cigar_ops (cigar : String) : List (Nat × Char) :=
  scanCigar none cigar.data

/-- The seven counters returned by `count_aligned_bases`
(the Rust function returns them as a 7-tuple, in this field order). -/
structure Counts where
  aligned_bases : Int
  not_aligned_bases_in_query : Int
  not_aligned_bases_in_target : Int
  indels_in_query : Int
  indels_in_target : Int
  ignored_in_query : Int
  ignored_in_target : Int
deriving DecidableEq, Repr

/-- The mutable local variables of the loop in `count_aligned_bases`:
the five accumulated counters and the two cursors. -/
structure LoopState where
  aligned_bases : Int
  not_aligned_bases_in_query : Int
  not_aligned_bases_in_target : Int
  indels_in_query : Int
  indels_in_target : Int
  query_pos : Int
  target_pos : Int
deriving DecidableEq, Repr

/-- The loop-invariant arguments of `count_aligned_bases` consulted by
the loop body: the strand flag `query_rev = (query_strand == '-')`, the
feature interval bounds in both spaces, and the indel-size threshold. -/
structure CigarCtx where
  query_rev : Bool
  feature_in_query_start : Int
  feature_in_query_end : Int
  feature_in_target_start : Int
  feature_in_target_end : Int
  max_indel_size : Int
deriving DecidableEq, Repr

/-- One iteration of the loop body of `count_aligned_bases` (the match
on the operation character, before the early-termination check). -/
def cigarStep (ctx : CigarCtx) (s : LoopState) (length : Int) (op : Char) : LoopState :=
  if op = 'M' ∨ op = '=' ∨ op = 'X' then
    let overlap_query :=
      if ctx.query_rev then
        max 0 (min s.query_pos ctx.feature_in_query_end -
          max (s.query_pos - length) ctx.feature_in_query_start)
      else
        max 0 (min (s.query_pos + length) ctx.feature_in_query_end -
          max s.query_pos ctx.feature_in_query_start)
    let overlap_target :=
      max 0 (min (s.target_pos + length) ctx.feature_in_target_end -
        max s.target_pos ctx.feature_in_target_start)
    { s with
      aligned_bases := s.aligned_bases + min overlap_query overlap_target,
      query_pos := if ctx.query_rev then s.query_pos - length else s.query_pos + length,
      target_pos := s.target_pos + length }
  else if op = 'D' then
    let overlap_target :=
      max 0 (min (s.target_pos + length) ctx.feature_in_target_end -
        max s.target_pos ctx.feature_in_target_start)
    if length ≤ ctx.max_indel_size then
      { s with
        indels_in_target := s.indels_in_target + overlap_target,
        target_pos := s.target_pos + length }
    else
      { s with
        not_aligned_bases_in_target := s.not_aligned_bases_in_target + overlap_target,
        target_pos := s.target_pos + length }
  else if op = 'I' then
    let overlap_query :=
      if ctx.query_rev then
        max 0 (min s.query_pos ctx.feature_in_query_end -
          max (s.query_pos - length) ctx.feature_in_query_start)
      else
        max 0 (min (s.query_pos + length) ctx.feature_in_query_end -
          max s.query_pos ctx.feature_in_query_start)
    if length ≤ ctx.max_indel_size then
      { s with
        indels_in_query := s.indels_in_query + overlap_query,
        query_pos := if ctx.query_rev then s.query_pos - length else s.query_pos + length }
    else
      { s with
        not_aligned_bases_in_query := s.not_aligned_bases_in_query + overlap_query,
        query_pos := if ctx.query_rev then s.query_pos - length else s.query_pos + length }
  else
    s

/-- The early-termination condition of `count_aligned_bases`, checked
after each operation: both the query cursor and the target cursor have
passed the feature. -/
def passedFeature (ctx : CigarCtx) (s : LoopState) : Bool :=
  ((ctx.query_rev && decide (s.query_pos ≤ ctx.feature_in_query_start)) ||
    (!ctx.query_rev && decide (ctx.feature_in_query_end ≤ s.query_pos))) &&
    decide (ctx.feature_in_target_end ≤ s.target_pos)

/-- The loop of `count_aligned_bases` over the operation list, with the
early break after each operation. -/
def runCigarOps (ctx : CigarCtx) (s : LoopState) : List (Int × Char) → LoopState
  | [] => s
  | (length, op) :: rest =>
    let s2 := cigarStep ctx s length op
    if passedFeature ctx s2 then s2 else runCigarOps ctx s2 rest

/-- The initial loop state of `count_aligned_bases`: all counters zero,
`query_pos = query_end` on the reverse strand and `query_start`
otherwise, `target_pos = target_start`. -/
def initLoopState (query_start query_end : Int) (query_rev : Bool) (target_start : Int) :
    LoopState :=
  { aligned_bases := 0
    not_aligned_bases_in_query := 0
    not_aligned_bases_in_target := 0
    indels_in_query := 0
    indels_in_target := 0
    query_pos := if query_rev then query_end else query_start
    target_pos := target_start }

/-- Final-result construction of `count_aligned_bases`: the five
accumulated counters unchanged, and the two ignored counters derived as
the feature length minus the three accumulated counters of that
coordinate space. -/
def finalCounts (feature_in_query_start feature_in_query_end feature_in_target_start
    feature_in_target_end : Int) (s : LoopState) : Counts :=
  { aligned_bases := s.aligned_bases
    not_aligned_bases_in_query := s.not_aligned_bases_in_query
    not_aligned_bases_in_target := s.not_aligned_bases_in_target
    indels_in_query := s.indels_in_query
    indels_in_target := s.indels_in_target
    ignored_in_query := (feature_in_query_end - feature_in_query_start) -
      s.aligned_bases - s.indels_in_query - s.not_aligned_bases_in_query
    ignored_in_target := (feature_in_target_end - feature_in_target_start) -
      s.aligned_bases - s.indels_in_target - s.not_aligned_bases_in_target }

/-- The core function on an already-extracted operation list (run
lengths as integers, as after `parse::<i64>` on the captured digits). -/
def count_aligned_bases_ops (query_start query_end : Int) (query_strand : Char)
    (target_start target_end : Int) (ops : List (Int × Char))
    (feature_in_query_start feature_in_query_end feature_in_target_start
      feature_in_target_end max_indel_size : Int) : Counts :=
  let query_rev : Bool := query_strand = '-'
  let ctx : CigarCtx :=
    { query_rev := query_rev
      feature_in_query_start := feature_in_query_start
      feature_in_query_end := feature_in_query_end
      feature_in_target_start := feature_in_target_start
      feature_in_target_end := feature_in_target_end
      max_indel_size := max_indel_size }
  let sf := runCigarOps ctx (initLoopState query_start query_end query_rev target_start) ops
  finalCounts feature_in_query_start feature_in_query_end feature_in_target_start
    feature_in_target_end sf

/-- Shallow embedding of the Rust function `count_aligned_bases`.
`target_end` is the unused `_target_end` parameter of the source. -/
def count_aligned_bases (query_start query_end : Int) (query_strand : Char)
    (target_start target_end : Int) (cigar : String)
    (feature_in_query_start feature_in_query_end feature_in_target_start
      feature_in_target_end max_indel_size : Int) : Counts :=
  count_aligned_bases_ops query_start query_end query_strand target_start target_end
    ((parse_cigar_ops cigar).map (fun p => ((p.1 : Int), p.2)))
    feature_in_query_start feature_in_query_end feature_in_target_start
    feature_in_target_end max_indel_size

example :
    count_aligned_bases 0 10 '+' 0 10 "10M" 2 6 2 6 0 =
      { aligned_bases := 4, not_aligned_bases_in_query := 0,
        not_aligned_bases_in_target := 0, indels_in_query := 0, indels_in_target := 0,
        ignored_in_query := 0, ignored_in_target := 0 } := by decide

/-- Claim C1: for every record, the seven counters returned by
`count_aligned_bases` satisfy
`aligned_bases + indels_in_query + not_aligned_bases_in_query + ignored_in_query
  = feature_in_query_end - feature_in_query_start` and the analogous
target identity, because the two ignored counters are derived once at
the end as the feature length minus the three accumulated counters of
that coordinate space. -/
theorem counters_sum_identity (query_start query_end : Int) (query_strand : Char)
    (target_start target_end : Int) (cigar : String)
    (feature_in_query_start feature_in_query_end feature_in_target_start
      feature_in_target_end max_indel_size : Int) :
    (count_aligned_bases query_start query_end query_strand target_start target_end cigar
        feature_in_query_start feature_in_query_end feature_in_target_start
        feature_in_target_end max_indel_size).aligned_bases +
      (count_aligned_bases query_start query_end query_strand target_start target_end cigar
        feature_in_query_start feature_in_query_end feature_in_target_start
        feature_in_target_end max_indel_size).indels_in_query +
      (count_aligned_bases query_start query_end query_strand target_start target_end cigar
        feature_in_query_start feature_in_query_end feature_in_target_start
        feature_in_target_end max_indel_size).not_aligned_bases_in_query +
      (count_aligned_bases query_start query_end query_strand target_start target_end cigar
        feature_in_query_start feature_in_query_end feature_in_target_start
        feature_in_target_end max_indel_size).ignored_in_query =
      feature_in_query_end - feature_in_query_start ∧
    (count_aligned_bases query_start query_end query_strand target_start target_end cigar
        feature_in_query_start feature_in_query_end feature_in_target_start
        feature_in_target_end max_indel_size).aligned_bases +
      (count_aligned_bases query_start query_end query_strand target_start target_end cigar
        feature_in_query_start feature_in_query_end feature_in_target_start
        feature_in_target_end max_indel_size).indels_in_target +
      (count_aligned_bases query_start query_end query_strand target_start target_end cigar
        feature_in_query_start feature_in_query_end feature_in_target_start
        feature_in_target_end max_indel_size).not_aligned_bases_in_target +
      (count_aligned_bases query_start query_end query_strand target_start target_end cigar
        feature_in_query_start feature_in_query_end feature_in_target_start
        feature_in_target_end max_indel_size).ignored_in_target =
      feature_in_target_end - feature_in_target_start := by
  simp only [count_aligned_bases, count_aligned_bases_ops, finalCounts]
  constructor <;> ring

/-- Claim C10: the result of `count_aligned_bases` does not depend on
the `target_end` argument (the source binds it as `_target_end` and
never reads it). -/
theorem target_end_unused (query_start query_end : Int) (query_strand : Char)
    (target_start target_end1 target_end2 : Int) (cigar : String)
    (feature_in_query_start feature_in_query_end feature_in_target_start
      feature_in_target_end max_indel_size : Int) :
    count_aligned_bases query_start query_end query_strand target_start target_end1 cigar
        feature_in_query_start feature_in_query_end feature_in_target_start
        feature_in_target_end max_indel_size =
      count_aligned_bases query_start query_end query_strand target_start target_end2 cigar
        feature_in_query_start feature_in_query_end feature_in_target_start
        feature_in_target_end max_indel_size := rfl

/-- Claim C2: for every match/mismatch operation (codes M, =, X) of run
length L, one loop iteration of `count_aligned_bases` advances the
target cursor forward by L, advances the query cursor by L in the
strand direction, and adds `min(query_overlap, target_overlap)` to
`aligned_bases`, with the overlaps computed by the half-open
intersection formulas (forward cursor: `max 0 (min (p+L) fe - max p fs)`;
reverse query cursor: `max 0 (min p fe - max (p-L) fs)`). -/
theorem match_step_spec (qrev : Bool) (fqs fqe fts fte mis : Int) (s : LoopState) (L : Int) :
    ((cigarStep ⟨qrev, fqs, fqe, fts, fte, mis⟩ s L 'M').target_pos = s.target_pos + L ∧
      (cigarStep ⟨qrev, fqs, fqe, fts, fte, mis⟩ s L 'M').query_pos =
        (if qrev then s.query_pos - L else s.query_pos + L) ∧
      (cigarStep ⟨qrev, fqs, fqe, fts, fte, mis⟩ s L 'M').aligned_bases =
        s.aligned_bases +
          min (if qrev then max 0 (min s.query_pos fqe - max (s.query_pos - L) fqs)
               else max 0 (min (s.query_pos + L) fqe - max s.query_pos fqs))
            (max 0 (min (s.target_pos + L) fte - max s.target_pos fts))) ∧
    ((cigarStep ⟨qrev, fqs, fqe, fts, fte, mis⟩ s L '=').target_pos = s.target_pos + L ∧
      (cigarStep ⟨qrev, fqs, fqe, fts, fte, mis⟩ s L '=').query_pos =
        (if qrev then s.query_pos - L else s.query_pos + L) ∧
      (cigarStep ⟨qrev, fqs, fqe, fts, fte, mis⟩ s L '=').aligned_bases =
        s.aligned_bases +
          min (if qrev then max 0 (min s.query_pos fqe - max (s.query_pos - L) fqs)
               else max 0 (min (s.query_pos + L) fqe - max s.query_pos fqs))
            (max 0 (min (s.target_pos + L) fte - max s.target_pos fts))) ∧
    ((cigarStep ⟨qrev, fqs, fqe, fts, fte, mis⟩ s L 'X').target_pos = s.target_pos + L ∧
      (cigarStep ⟨qrev, fqs, fqe, fts, fte, mis⟩ s L 'X').query_pos =
        (if qrev then s.query_pos - L else s.query_pos + L) ∧
      (cigarStep ⟨qrev, fqs, fqe, fts, fte, mis⟩ s L 'X').aligned_bases =
        s.aligned_bases +
          min (if qrev then max 0 (min s.query_pos fqe - max (s.query_pos - L) fqs)
               else max 0 (min (s.query_pos + L) fqe - max s.query_pos fqs))
            (max 0 (min (s.target_pos + L) fte - max s.target_pos fts))) :=
  ⟨⟨rfl, rfl, rfl⟩, ⟨rfl, rfl, rfl⟩, rfl, rfl, rfl⟩

/-- Claim C3: for every deletion or insertion operation of run length L,
the choice between the indel bucket and the not-aligned bucket is made
by comparing the entire run length against the threshold (indel iff
`L ≤ max_indel_size`), while only the feature-overlapping portion of the
run (target space for deletions, query space for insertions) is added to
the selected bucket; the non-overlapping portion contributes to no
counter, and no other counter or cursor of the other space changes. -/
theorem indel_step_spec (qrev : Bool) (fqs fqe fts fte mis : Int) (s : LoopState) (L : Int) :
    ((cigarStep ⟨qrev, fqs, fqe, fts, fte, mis⟩ s L 'D').indels_in_target =
        s.indels_in_target +
          (if L ≤ mis then max 0 (min (s.target_pos + L) fte - max s.target_pos fts) else 0) ∧
      (cigarStep ⟨qrev, fqs, fqe, fts, fte, mis⟩ s L 'D').not_aligned_bases_in_target =
        s.not_aligned_bases_in_target +
          (if L ≤ mis then 0 else max 0 (min (s.target_pos + L) fte - max s.target_pos fts)) ∧
      (cigarStep ⟨qrev, fqs, fqe, fts, fte, mis⟩ s L 'D').aligned_bases = s.aligned_bases ∧
      (cigarStep ⟨qrev, fqs, fqe, fts, fte, mis⟩ s L 'D').indels_in_query = s.indels_in_query ∧
      (cigarStep ⟨qrev, fqs, fqe, fts, fte, mis⟩ s L 'D').not_aligned_bases_in_query =
        s.not_aligned_bases_in_query ∧
      (cigarStep ⟨qrev, fqs, fqe, fts, fte, mis⟩ s L 'D').query_pos = s.query_pos ∧
      (cigarStep ⟨qrev, fqs, fqe, fts, fte, mis⟩ s L 'D').target_pos = s.target_pos + L) ∧
    ((cigarStep ⟨qrev, fqs, fqe, fts, fte, mis⟩ s L 'I').indels_in_query =
        s.indels_in_query +
          (if L ≤ mis then
            (if qrev then max 0 (min s.query_pos fqe - max (s.query_pos - L) fqs)
             else max 0 (min (s.query_pos + L) fqe - max s.query_pos fqs))
           else 0) ∧
      (cigarStep ⟨qrev, fqs, fqe, fts, fte, mis⟩ s L 'I').not_aligned_bases_in_query =
        s.not_aligned_bases_in_query +
          (if L ≤ mis then 0
           else
            (if qrev then max 0 (min s.query_pos fqe - max (s.query_pos - L) fqs)
             else max 0 (min (s.query_pos + L) fqe - max s.query_pos fqs))) ∧
      (cigarStep ⟨qrev, fqs, fqe, fts, fte, mis⟩ s L 'I').aligned_bases = s.aligned_bases ∧
      (cigarStep ⟨qrev, fqs, fqe, fts, fte, mis⟩ s L 'I').indels_in_target = s.indels_in_target ∧
      (cigarStep ⟨qrev, fqs, fqe, fts, fte, mis⟩ s L 'I').not_aligned_bases_in_target =
        s.not_aligned_bases_in_target ∧
      (cigarStep ⟨qrev, fqs, fqe, fts, fte, mis⟩ s L 'I').target_pos = s.target_pos ∧
      (cigarStep ⟨qrev, fqs, fqe, fts, fte, mis⟩ s L 'I').query_pos =
        (if qrev then s.query_pos - L else s.query_pos + L)) := by
  by_cases hL : L ≤ mis <;> simp [cigarStep, hL]

/-- Claim C6: with `max_indel_size = 0`, every insertion or deletion run
of positive length is classified as not-aligned rather than indel: its
feature-overlapping bases go to `not_aligned_bases_in_query`
(insertions) or `not_aligned_bases_in_target` (deletions), and the two
indel counters are unchanged. -/
theorem max_indel_zero_not_aligned (qrev : Bool) (fqs fqe fts fte : Int) (s : LoopState)
    (L : Int) (hL : 0 < L) :
    (cigarStep ⟨qrev, fqs, fqe, fts, fte, 0⟩ s L 'I').not_aligned_bases_in_query =
      s.not_aligned_bases_in_query +
        (if qrev then max 0 (min s.query_pos fqe - max (s.query_pos - L) fqs)
         else max 0 (min (s.query_pos + L) fqe - max s.query_pos fqs)) ∧
    (cigarStep ⟨qrev, fqs, fqe, fts, fte, 0⟩ s L 'I').indels_in_query = s.indels_in_query ∧
    (cigarStep ⟨qrev, fqs, fqe, fts, fte, 0⟩ s L 'I').indels_in_target = s.indels_in_target ∧
    (cigarStep ⟨qrev, fqs, fqe, fts, fte, 0⟩ s L 'D').not_aligned_bases_in_target =
      s.not_aligned_bases_in_target +
        max 0 (min (s.target_pos + L) fte - max s.target_pos fts) ∧
    (cigarStep ⟨qrev, fqs, fqe, fts, fte, 0⟩ s L 'D').indels_in_target = s.indels_in_target ∧
    (cigarStep ⟨qrev, fqs, fqe, fts, fte, 0⟩ s L 'D').indels_in_query = s.indels_in_query := by
  have h : ¬ (L ≤ (0 : Int)) := by omega
  simp [cigarStep, h]

/-- Witness for `max_indel_zero_not_aligned` at a concrete input. -/
theorem max_indel_zero_not_aligned_witness :
    (0 : Int) < 3 ∧
    ((cigarStep ⟨false, 2, 6, 2, 6, 0⟩
        { aligned_bases := 0, not_aligned_bases_in_query := 0,
          not_aligned_bases_in_target := 0, indels_in_query := 0, indels_in_target := 0,
          query_pos := 0, target_pos := 0 } 3 'I').not_aligned_bases_in_query =
      0 + (if false then max 0 (min 0 6 - max (0 - 3) 2) else max 0 (min (0 + 3) 6 - max 0 2)) ∧
    (cigarStep ⟨false, 2, 6, 2, 6, 0⟩
        { aligned_bases := 0, not_aligned_bases_in_query := 0,
          not_aligned_bases_in_target := 0, indels_in_query := 0, indels_in_target := 0,
          query_pos := 0, target_pos := 0 } 3 'I').indels_in_query = 0 ∧
    (cigarStep ⟨false, 2, 6, 2, 6, 0⟩
        { aligned_bases := 0, not_aligned_bases_in_query := 0,
          not_aligned_bases_in_target := 0, indels_in_query := 0, indels_in_target := 0,
          query_pos := 0, target_pos := 0 } 3 'I').indels_in_target = 0 ∧
    (cigarStep ⟨false, 2, 6, 2, 6, 0⟩
        { aligned_bases := 0, not_aligned_bases_in_query := 0,
          not_aligned_bases_in_target := 0, indels_in_query := 0, indels_in_target := 0,
          query_pos := 0, target_pos := 0 } 3 'D').not_aligned_bases_in_target =
      0 + max 0 (min (0 + 3) 6 - max 0 2) ∧
    (cigarStep ⟨false, 2, 6, 2, 6, 0⟩
        { aligned_bases := 0, not_aligned_bases_in_query := 0,
          not_aligned_bases_in_target := 0, indels_in_query := 0, indels_in_target := 0,
          query_pos := 0, target_pos := 0 } 3 'D').indels_in_target = 0 ∧
    (cigarStep ⟨false, 2, 6, 2, 6, 0⟩
        { aligned_bases := 0, not_aligned_bases_in_query := 0,
          not_aligned_bases_in_target := 0, indels_in_query := 0, indels_in_target := 0,
          query_pos := 0, target_pos := 0 } 3 'D').indels_in_query = 0) :=
  ⟨by decide,
    max_indel_zero_not_aligned false 2 6 2 6
      { aligned_bases := 0, not_aligned_bases_in_query := 0,
        not_aligned_bases_in_target := 0, indels_in_query := 0, indels_in_target := 0,
        query_pos := 0, target_pos := 0 } 3 (by decide)⟩

/-- Helper: once the run over `ops` ends in a state satisfying the
early-termination condition, appending further operations does not
change the final loop state (the loop breaks before consuming them). -/
theorem runCigarOps_append_of_passed (ctx : CigarCtx) (ops : List (Int × Char)) :
    ∀ (s : LoopState) (extra : List (Int × Char)), ops ≠ [] →
      passedFeature ctx (runCigarOps ctx s ops) = true →
      runCigarOps ctx s (ops ++ extra) = runCigarOps ctx s ops := by
  induction ops with
  | nil => intro s extra h _; exact absurd rfl h
  | cons hd rest ih =>
    intro s extra _ hp
    obtain ⟨L, o⟩ := hd
    by_cases h2 : passedFeature ctx (cigarStep ctx s L o) = true
    · simp only [runCigarOps, List.cons_append, if_pos h2]
    · simp only [runCigarOps, if_neg h2] at hp
      simp only [runCigarOps, List.cons_append, if_neg h2]
      match rest with
      | [] => exact absurd hp h2
      | r :: rs => exact ih (cigarStep ctx s L o) extra (by simp) hp

/-- Claim C4: if after processing some operation of the original CIGAR
string the query cursor has passed the feature in query space and the
target cursor has passed it in target space (the early-termination
condition holds at the end of the run over the original string's
nonempty operation stream), then the call on a CIGAR string whose
operation stream is the original one with arbitrary further operations
appended returns exactly the same seven counters. -/
theorem early_termination_append (query_start query_end : Int) (query_strand : Char)
    (target_start target_end : Int) (cigar cigar2 : String) (extra : List (Int × Char))
    (feature_in_query_start feature_in_query_end feature_in_target_start
      feature_in_target_end max_indel_size : Int)
    (hparse : (parse_cigar_ops cigar2).map (fun p => ((p.1 : Int), p.2)) =
      (parse_cigar_ops cigar).map (fun p => ((p.1 : Int), p.2)) ++ extra)
    (hne : parse_cigar_ops cigar ≠ [])
    (hp : passedFeature
      ⟨query_strand = '-', feature_in_query_start, feature_in_query_end,
        feature_in_target_start, feature_in_target_end, max_indel_size⟩
      (runCigarOps
        ⟨query_strand = '-', feature_in_query_start, feature_in_query_end,
          feature_in_target_start, feature_in_target_end, max_indel_size⟩
        (initLoopState query_start query_end (query_strand = '-') target_start)
        ((parse_cigar_ops cigar).map (fun p => ((p.1 : Int), p.2)))) = true) :
    count_aligned_bases query_start query_end query_strand target_start target_end cigar2
        feature_in_query_start feature_in_query_end feature_in_target_start
        feature_in_target_end max_indel_size =
      count_aligned_bases query_start query_end query_strand target_start target_end cigar
        feature_in_query_start feature_in_query_end feature_in_target_start
        feature_in_target_end max_indel_size := by
  simp only [count_aligned_bases, count_aligned_bases_ops, hparse]
  rw [runCigarOps_append_of_passed _ _ _ _ (by simpa using hne) hp]

/-- Witness for `early_termination_append` at a concrete input: a 10M
alignment that has passed the feature intervals [2,6) in both spaces,
with a further 5M operation appended to the string. -/
theorem early_termination_append_witness :
    ((parse_cigar_ops "10M5M").map (fun p => ((p.1 : Int), p.2)) =
      (parse_cigar_ops "10M").map (fun p => ((p.1 : Int), p.2)) ++ [((5 : Int), 'M')] ∧
      parse_cigar_ops "10M" ≠ [] ∧
      passedFeature ⟨('+' : Char) = '-', 2, 6, 2, 6, 5⟩
        (runCigarOps ⟨('+' : Char) = '-', 2, 6, 2, 6, 5⟩
          (initLoopState 0 10 (('+' : Char) = '-') 0)
          ((parse_cigar_ops "10M").map (fun p => ((p.1 : Int), p.2)))) = true) ∧
    count_aligned_bases 0 10 '+' 0 10 "10M5M" 2 6 2 6 5 =
      count_aligned_bases 0 10 '+' 0 10 "10M" 2 6 2 6 5 :=
  ⟨⟨by decide, by decide, by decide⟩,
    early_termination_append 0 10 '+' 0 10 "10M" "10M5M" [((5 : Int), 'M')]
      2 6 2 6 5 (by decide) (by decide) (by decide)⟩

/-- Reflection of the query cursor about `c`; counters and the target
cursor are untouched. -/
def mirrorState (c : Int) (s : LoopState) : LoopState :=
  { s with query_pos := c - s.query_pos }

/-- Helper: when the feature interval is symmetric about `c` (that is,
`c = feature_in_query_start + feature_in_query_end`), one reverse-strand
loop iteration from the reflected state is the reflection of the
forward-strand iteration. -/
theorem cigarStep_mirror (c fqs fqe fts fte mis : Int) (hc : c = fqs + fqe)
    (s : LoopState) (L : Int) (op : Char) :
    cigarStep ⟨true, fqs, fqe, fts, fte, mis⟩ (mirrorState c s) L op =
      mirrorState c (cigarStep ⟨false, fqs, fqe, fts, fte, mis⟩ s L op) := by
  subst hc
  by_cases hM : op = 'M' ∨ op = '=' ∨ op = 'X'
  · simp [cigarStep, mirrorState, hM, LoopState.mk.injEq] <;> omega
  · by_cases hD : op = 'D'
    · by_cases hT : L ≤ mis <;>
        simp [cigarStep, mirrorState, hM, hD, hT, LoopState.mk.injEq] <;> omega
    · by_cases hI : op = 'I'
      · by_cases hT : L ≤ mis <;>
          simp [cigarStep, mirrorState, hM, hD, hI, hT, LoopState.mk.injEq] <;> omega
      · simp [cigarStep, mirrorState, hM, hD, hI]

/-- Helper: the early-termination condition on the reflected state under
the reverse strand agrees with the forward condition, for a feature
symmetric about `c`. -/
theorem passedFeature_mirror (c fqs fqe fts fte mis : Int) (hc : c = fqs + fqe)
    (s : LoopState) :
    passedFeature ⟨true, fqs, fqe, fts, fte, mis⟩ (mirrorState c s) =
      passedFeature ⟨false, fqs, fqe, fts, fte, mis⟩ s := by
  subst hc
  simp only [passedFeature, mirrorState]
  simp only [Bool.true_and, Bool.not_true, Bool.false_and, Bool.or_false,
    Bool.not_false, Bool.false_or, Bool.true_or]
  rw [show (decide (fqs + fqe - s.query_pos ≤ fqs)) = decide (fqe ≤ s.query_pos) from
    decide_eq_decide.mpr (by omega)]

/-- Helper: the whole reverse-strand run from the reflected state is the
reflection of the forward-strand run, for a feature symmetric about
`c`. -/
theorem runCigarOps_mirror (c fqs fqe fts fte mis : Int) (hc : c = fqs + fqe)
    (ops : List (Int × Char)) :
    ∀ s : LoopState,
      runCigarOps ⟨true, fqs, fqe, fts, fte, mis⟩ (mirrorState c s) ops =
        mirrorState c (runCigarOps ⟨false, fqs, fqe, fts, fte, mis⟩ s ops) := by
  induction ops with
  | nil => intro s; rfl
  | cons hd rest ih =>
    intro s
    obtain ⟨L, o⟩ := hd
    simp only [runCigarOps]
    rw [cigarStep_mirror c fqs fqe fts fte mis hc s L o,
      passedFeature_mirror c fqs fqe fts fte mis hc]
    by_cases h2 : passedFeature ⟨false, fqs, fqe, fts, fte, mis⟩
        (cigarStep ⟨false, fqs, fqe, fts, fte, mis⟩ s L o) = true
    · simp only [if_pos h2]
    · simp only [if_neg h2]
      exact ih (cigarStep ⟨false, fqs, fqe, fts, fte, mis⟩ s L o)

/-- Claim C7: for a forward-strand record and the record identical to it
except that the query strand is reverse, if the feature's query interval
is symmetric around the alignment midpoint
(`feature_in_query_start + feature_in_query_end = query_start + query_end`),
then `count_aligned_bases` returns the same `aligned_bases` for both; on
the reverse-strand record the query cursor starts at `query_end` and
decreases. -/
theorem strand_symmetry_aligned (query_start query_end target_start target_end : Int)
    (cigar : String)
    (feature_in_query_start feature_in_query_end feature_in_target_start
      feature_in_target_end max_indel_size : Int)
    (hsym : feature_in_query_start + feature_in_query_end = query_start + query_end) :
    (count_aligned_bases query_start query_end '-' target_start target_end cigar
        feature_in_query_start feature_in_query_end feature_in_target_start
        feature_in_target_end max_indel_size).aligned_bases =
      (count_aligned_bases query_start query_end '+' target_start target_end cigar
        feature_in_query_start feature_in_query_end feature_in_target_start
        feature_in_target_end max_indel_size).aligned_bases := by
  simp only [count_aligned_bases, count_aligned_bases_ops, finalCounts]
  rw [show (decide True) = true from by decide,
    show (decide (('+' : Char) = '-')) = false from by decide]
  have hinit : initLoopState query_start query_end true target_start =
      mirrorState (feature_in_query_start + feature_in_query_end)
        (initLoopState query_start query_end false target_start) := by
    simp [initLoopState, mirrorState, LoopState.mk.injEq]
    omega
  rw [hinit, runCigarOps_mirror (feature_in_query_start + feature_in_query_end)
    feature_in_query_start feature_in_query_end feature_in_target_start
    feature_in_target_end max_indel_size rfl]
  rfl

/-- Witness for `strand_symmetry_aligned` at a concrete input: query
interval [0,10), feature [2,8) in query space (symmetric about 5), CIGAR
10M. -/
theorem strand_symmetry_aligned_witness :
    ((2 : Int) + 8 = 0 + 10) ∧
    (count_aligned_bases 0 10 '-' 0 10 "10M" 2 8 2 8 5).aligned_bases =
      (count_aligned_bases 0 10 '+' 0 10 "10M" 2 8 2 8 5).aligned_bases :=
  ⟨by decide, strand_symmetry_aligned 0 10 0 10 "10M" 2 8 2 8 5 (by decide)⟩

/-- Upper bound on the query-space contributions the loop can still
accumulate from query cursor position `qp`: the part of the feature
interval not yet passed by the cursor, clamped at 0. -/
def queryBudget (query_rev : Bool) (fqs fqe qp : Int) : Int :=
  if query_rev then max 0 (min qp fqe - fqs) else max 0 (fqe - max qp fqs)

/-- Loop invariant of `count_aligned_bases`: the five accumulated
counters are non-negative, and in each coordinate space the classified
contributions plus the remaining budget never exceed the feature
length. -/
def CountInv (ctx : CigarCtx) (s : LoopState) : Prop :=
  0 ≤ s.aligned_bases ∧ 0 ≤ s.not_aligned_bases_in_query ∧
  0 ≤ s.not_aligned_bases_in_target ∧ 0 ≤ s.indels_in_query ∧ 0 ≤ s.indels_in_target ∧
  s.aligned_bases + s.indels_in_query + s.not_aligned_bases_in_query +
      queryBudget ctx.query_rev ctx.feature_in_query_start ctx.feature_in_query_end
        s.query_pos ≤
    ctx.feature_in_query_end - ctx.feature_in_query_start ∧
  s.aligned_bases + s.indels_in_target + s.not_aligned_bases_in_target +
      max 0 (ctx.feature_in_target_end - max s.target_pos ctx.feature_in_target_start) ≤
    ctx.feature_in_target_end - ctx.feature_in_target_start

set_option maxHeartbeats 2000000 in
/-- Helper: one loop iteration preserves the invariant, for a run length
that is non-negative (run lengths come from parsed digit runs). -/
theorem cigarStep_inv (qrev : Bool) (fqs fqe fts fte mis : Int) (s : LoopState) (L : Int)
    (op : Char) (hL : 0 ≤ L)
    (h : CountInv ⟨qrev, fqs, fqe, fts, fte, mis⟩ s) :
    CountInv ⟨qrev, fqs, fqe, fts, fte, mis⟩
      (cigarStep ⟨qrev, fqs, fqe, fts, fte, mis⟩ s L op) := by
  by_cases hM : op = 'M' ∨ op = '=' ∨ op = 'X'
  · cases qrev <;>
      simp_all [cigarStep, CountInv, queryBudget] <;> omega
  · by_cases hD : op = 'D'
    · rcases le_or_lt L mis with hT | hT
      · cases qrev <;>
          simp_all [cigarStep, CountInv, queryBudget, if_pos hT] <;> omega
      · cases qrev <;>
          simp_all [cigarStep, CountInv, queryBudget, if_neg (not_le.mpr hT)] <;> omega
    · by_cases hI : op = 'I'
      · rcases le_or_lt L mis with hT | hT
        · cases qrev <;>
            simp_all [cigarStep, CountInv, queryBudget, if_pos hT] <;> omega
        · cases qrev <;>
            simp_all [cigarStep, CountInv, queryBudget, if_neg (not_le.mpr hT)] <;> omega
      · simp_all [cigarStep, CountInv, queryBudget]

/-- Helper: the whole loop preserves the invariant when every run length
in the operation list is non-negative. -/
theorem runCigarOps_inv (qrev : Bool) (fqs fqe fts fte mis : Int)
    (ops : List (Int × Char)) :
    ∀ s : LoopState, (∀ p ∈ ops, 0 ≤ p.1) →
      CountInv ⟨qrev, fqs, fqe, fts, fte, mis⟩ s →
      CountInv ⟨qrev, fqs, fqe, fts, fte, mis⟩
        (runCigarOps ⟨qrev, fqs, fqe, fts, fte, mis⟩ s ops) := by
  induction ops with
  | nil => intro s _ h; exact h
  | cons hd rest ih =>
    intro s hops h
    obtain ⟨L, o⟩ := hd
    have hL : 0 ≤ L := hops (L, o) (List.mem_cons_self _ _)
    have h2 := cigarStep_inv qrev fqs fqe fts fte mis s L o hL h
    by_cases hp : passedFeature ⟨qrev, fqs, fqe, fts, fte, mis⟩
        (cigarStep ⟨qrev, fqs, fqe, fts, fte, mis⟩ s L o) = true
    · simp only [runCigarOps, if_pos hp]
      exact h2
    · simp only [runCigarOps, if_neg hp]
      exact ih _ (fun p hp2 => hops p (List.mem_cons_of_mem _ hp2)) h2

/-- Claim C9: for every CIGAR string and integer inputs with
`feature_in_query_start ≤ feature_in_query_end` and
`feature_in_target_start ≤ feature_in_target_end`, all seven counters
returned by `count_aligned_bases` are non-negative, including the two
derived ignored counters. -/
theorem counters_nonneg (query_start query_end : Int) (query_strand : Char)
    (target_start target_end : Int) (cigar : String)
    (fqs fqe fts fte mis : Int) (hq : fqs ≤ fqe) (ht : fts ≤ fte) :
    0 ≤ (count_aligned_bases query_start query_end query_strand target_start target_end
        cigar fqs fqe fts fte mis).aligned_bases ∧
    0 ≤ (count_aligned_bases query_start query_end query_strand target_start target_end
        cigar fqs fqe fts fte mis).not_aligned_bases_in_query ∧
    0 ≤ (count_aligned_bases query_start query_end query_strand target_start target_end
        cigar fqs fqe fts fte mis).not_aligned_bases_in_target ∧
    0 ≤ (count_aligned_bases query_start query_end query_strand target_start target_end
        cigar fqs fqe fts fte mis).indels_in_query ∧
    0 ≤ (count_aligned_bases query_start query_end query_strand target_start target_end
        cigar fqs fqe fts fte mis).indels_in_target ∧
    0 ≤ (count_aligned_bases query_start query_end query_strand target_start target_end
        cigar fqs fqe fts fte mis).ignored_in_query ∧
    0 ≤ (count_aligned_bases query_start query_end query_strand target_start target_end
        cigar fqs fqe fts fte mis).ignored_in_target := by
  have hops : ∀ p ∈ (parse_cigar_ops cigar).map (fun p => ((p.1 : Int), p.2)), 0 ≤ p.1 := by
    intro p hp
    obtain ⟨q, _, rfl⟩ := List.mem_map.mp hp
    exact Int.natCast_nonneg q.1
  have hinit : CountInv ⟨query_strand = '-', fqs, fqe, fts, fte, mis⟩
      (initLoopState query_start query_end (query_strand = '-') target_start) := by
    unfold CountInv initLoopState queryBudget
    cases hrev : (query_strand = '-' : Bool) <;> simp <;> omega
  have hfin := runCigarOps_inv (query_strand = '-') fqs fqe fts fte mis
    ((parse_cigar_ops cigar).map (fun p => ((p.1 : Int), p.2)))
    (initLoopState query_start query_end (query_strand = '-') target_start) hops hinit
  simp only [count_aligned_bases, count_aligned_bases_ops, finalCounts]
  obtain ⟨h1, h2, h3, h4, h5, h6, h7⟩ := hfin
  have hb1 : 0 ≤ queryBudget (query_strand = '-') fqs fqe
      (runCigarOps ⟨query_strand = '-', fqs, fqe, fts, fte, mis⟩
        (initLoopState query_start query_end (query_strand = '-') target_start)
        ((parse_cigar_ops cigar).map (fun p => ((p.1 : Int), p.2)))).query_pos := by
    unfold queryBudget
    cases (query_strand = '-' : Bool) <;> simp
  refine ⟨h1, h2, h3, h4, h5, ?_, ?_⟩
  · simp only [CigarCtx.query_rev] at h6
    omega
  · simp only [] at h7
    omega

/-- Witness for `counters_nonneg` at a concrete input. -/
theorem counters_nonneg_witness :
    ((2 : Int) ≤ 6 ∧ (2 : Int) ≤ 6) ∧
    (0 ≤ (count_aligned_bases 0 10 '+' 0 10 "10M" 2 6 2 6 5).aligned_bases ∧
      0 ≤ (count_aligned_bases 0 10 '+' 0 10 "10M" 2 6 2 6 5).not_aligned_bases_in_query ∧
      0 ≤ (count_aligned_bases 0 10 '+' 0 10 "10M" 2 6 2 6 5).not_aligned_bases_in_target ∧
      0 ≤ (count_aligned_bases 0 10 '+' 0 10 "10M" 2 6 2 6 5).indels_in_query ∧
      0 ≤ (count_aligned_bases 0 10 '+' 0 10 "10M" 2 6 2 6 5).indels_in_target ∧
      0 ≤ (count_aligned_bases 0 10 '+' 0 10 "10M" 2 6 2 6 5).ignored_in_query ∧
      0 ≤ (count_aligned_bases 0 10 '+' 0 10 "10M" 2 6 2 6 5).ignored_in_target) :=
  ⟨⟨by decide, by decide⟩,
    counters_nonneg 0 10 '+' 0 10 "10M" 2 6 2 6 5 (by decide) (by decide)⟩

/-- Decimal value of a digit run, `none` when the run is empty at the
call site or contains a non-digit (Rust `str::parse` rejects those). -/
def digitsValAux : Nat → List Char → Option Nat
  | acc, [] => some acc
  | acc, c :: rest =>
    if c.isDigit then digitsValAux (acc * 10 + (c.toNat - '0'.toNat)) rest else none

/-- Model of Rust `str::parse::<i64>` on the positional fields: an
optional sign followed by at least one ASCII digit, nothing else
(overflow of i64, which also makes the Rust parse fail, is not
modelled). -/
def parseI64 (s : String) : Option Int :=
  match s.data with
  | [] => none
  | c :: rest =>
    if c = '-' then
      match rest with
      | [] => none
      | _ => (digitsValAux 0 rest).map (fun n => -(n : Int))
    else if c = '+' then
      match rest with
      | [] => none
      | _ => (digitsValAux 0 rest).map (fun n => ((n : Nat) : Int))
    else (digitsValAux 0 (c :: rest)).map (fun n => ((n : Nat) : Int))

/-- Left-to-right, non-overlapping split of a character list on a
pattern, keeping empty chunks (Rust `str::split`); the `Nat` argument
counts pattern characters still to be skipped after a match. Used only
with nonempty separators. -/
def splitOnPatAux (pat : List Char) : Nat → List Char → List (List Char)
  | 0, [] => [[]]
  | _ + 1, [] => [[]]
  | 0, c :: rest =>
    if !pat.isEmpty && pat.isPrefixOf (c :: rest) then
      [] :: splitOnPatAux pat (pat.length - 1) rest
    else
      match splitOnPatAux pat 0 rest with
      | [] => [[c]]
      | g :: gs => (c :: g) :: gs
  | k + 1, _ :: rest => splitOnPatAux pat k rest

/-- Rust `str::split` on a nonempty separator, as a list of strings. -/
def rustSplit (sep : String) (s : String) : List String :=
  (splitOnPatAux sep.data 0 s.data).map (fun cs => String.mk cs)

/-- The fields `main` extracts from one tab-separated line, in source
order; extraction fails (Rust panic) when an index is out of bounds or a
positional field does not parse as an integer. -/
structure Fields where
  query_name : String
  query_start : Int
  query_end : Int
  query_strand : String
  target_name : String
  target_start : Int
  target_end : Int
  cigar : String
  query_name_2 : String
  feature_in_query_start : Int
  feature_in_query_end : Int
  feature_in_query_name : String
  feature_in_query_strand : String
  target_name_2 : String
  feature_in_target_start : Int
  feature_in_target_end : Int
  feature_in_target_name : String
  feature_in_target_strand : String
deriving DecidableEq, Repr

/-- Extraction of parts 0, 2, 3, 4, 5, 7 of a line (query name, query
start, query end, query strand, target name, target start). -/
def parseFieldsA (parts : List String) :
    Option (String × Int × Int × String × String × Int) :=
  parts[0]?.bind fun query_name =>
  (parts[2]?.bind parseI64).bind fun query_start =>
  (parts[3]?.bind parseI64).bind fun query_end =>
  parts[4]?.bind fun query_strand =>
  parts[5]?.bind fun target_name =>
  (parts[7]?.bind parseI64).bind fun target_start =>
  some (query_name, query_start, query_end, query_strand, target_name, target_start)

/-- Extraction of parts 8, 12, 13, 14, 15, 16 of a line (target end,
CIGAR, second query name, feature-in-query start, end and name); the
CIGAR is whatever follows the last `cg:Z:` in part 12
(`split("cg:Z:").last().unwrap_or_default()`). -/
def parseFieldsB (parts : List String) :
    Option (Int × String × String × Int × Int × String) :=
  (parts[8]?.bind parseI64).bind fun target_end =>
  parts[12]?.bind fun cigar_field =>
  parts[13]?.bind fun query_name_2 =>
  (parts[14]?.bind parseI64).bind fun feature_in_query_start =>
  (parts[15]?.bind parseI64).bind fun feature_in_query_end =>
  parts[16]?.bind fun feature_in_query_name =>
  some (target_end, (rustSplit "cg:Z:" cigar_field).getLastD "", query_name_2,
    feature_in_query_start, feature_in_query_end, feature_in_query_name)

/-- Extraction of parts 18, 20, 21, 22, 23, 25 of a line
(feature-in-query strand, second target name, feature-in-target start,
end, name and strand). -/
def parseFieldsC (parts : List String) :
    Option (String × String × Int × Int × String × String) :=
  parts[18]?.bind fun feature_in_query_strand =>
  parts[20]?.bind fun target_name_2 =>
  (parts[21]?.bind parseI64).bind fun feature_in_target_start =>
  (parts[22]?.bind parseI64).bind fun feature_in_target_end =>
  parts[23]?.bind fun feature_in_target_name =>
  parts[25]?.bind fun feature_in_target_strand =>
  some (feature_in_query_strand, target_name_2, feature_in_target_start,
    feature_in_target_end, feature_in_target_name, feature_in_target_strand)

/-- Extraction of the fields of one line by `main`: split on tabs, index
the parts, parse the integer fields; all extractions must succeed
exactly as in the source (each failure is a Rust panic). -/
def parseFields (line : String) : Option Fields :=
  let parts := rustSplit "\t" line
  (parseFieldsA parts).bind fun a =>
  (parseFieldsB parts).bind fun b =>
  (parseFieldsC parts).bind fun c =>
  some
    { query_name := a.1, query_start := a.2.1, query_end := a.2.2.1,
      query_strand := a.2.2.2.1, target_name := a.2.2.2.2.1,
      target_start := a.2.2.2.2.2, target_end := b.1, cigar := b.2.1,
      query_name_2 := b.2.2.1, feature_in_query_start := b.2.2.2.1,
      feature_in_query_end := b.2.2.2.2.1, feature_in_query_name := b.2.2.2.2.2,
      feature_in_query_strand := c.1, target_name_2 := c.2.1,
      feature_in_target_start := c.2.2.1, feature_in_target_end := c.2.2.2.1,
      feature_in_target_name := c.2.2.2.2.1, feature_in_target_strand := c.2.2.2.2.2 }

/-- One output row of `main` (the fields of the println, with the seven
counters bundled). -/
structure Row where
  feature_name : String
  query_name : String
  feature_in_query_start : Int
  feature_in_query_end : Int
  query_strand : String
  target_name : String
  feature_in_target_start : Int
  feature_in_target_end : Int
  counts : Counts
deriving DecidableEq, Repr

/-- Outcome of processing one input line in `main`: a fatal abort
(panic on malformed structure), a skipped record with a warning on
stderr, or an emitted output row. -/
inductive LineOutcome where
  | fatal : LineOutcome
  | skipWarn : LineOutcome
  | emit : Row → LineOutcome
deriving DecidableEq, Repr

/-- Processing of one line by `main`: extract the fields (panic =
`fatal` if that fails), skip with a warning on a name mismatch or an
inconsistent strand relationship, otherwise run `count_aligned_bases`
and emit the row (taking the first character of the strand field,
whose absence is also a panic). -/
def processLine (max_indel_size : Int) (line : String) : LineOutcome :=
  match parseFields line with
  | none => .fatal
  | some f =>
    if f.query_name ≠ f.query_name_2 ∨ f.target_name ≠ f.target_name_2 ∨
        f.feature_in_query_name ≠ f.feature_in_target_name then
      .skipWarn
    else if f.feature_in_query_strand ≠ f.feature_in_target_strand ∧
        f.query_strand = "+" then
      .skipWarn
    else
      match f.query_strand.data with
      | [] => .fatal
      | c :: _ =>
        .emit
          { feature_name := f.feature_in_query_name, query_name := f.query_name,
            feature_in_query_start := f.feature_in_query_start,
            feature_in_query_end := f.feature_in_query_end,
            query_strand := f.query_strand, target_name := f.target_name,
            feature_in_target_start := f.feature_in_target_start,
            feature_in_target_end := f.feature_in_target_end,
            counts := count_aligned_bases f.query_start f.query_end c f.target_start
              f.target_end f.cigar f.feature_in_query_start f.feature_in_query_end
              f.feature_in_target_start f.feature_in_target_end max_indel_size }

/-- The per-line loop of `main` over the input lines: rows of emitted
records in order; `none` when some line aborts the whole run. -/
def processLines (max_indel_size : Int) : List String → Option (List Row)
  | [] => some []
  | l :: ls =>
    match processLine max_indel_size l with
    | .fatal => none
    | .skipWarn => processLines max_indel_size ls
    | .emit r => (processLines max_indel_size ls).map (fun rs => r :: rs)

/-- Claim C8: a line whose query, target, or feature name differs
between the query-side and target-side projections is skipped: no row is
emitted for it (the outcome is the skip-with-warning outcome), and the
run produces exactly the rows it would produce without that line. -/
theorem name_mismatch_skip (max_indel_size : Int) (l : String) (f : Fields)
    (hf : parseFields l = some f)
    (hn : f.query_name ≠ f.query_name_2 ∨ f.target_name ≠ f.target_name_2 ∨
      f.feature_in_query_name ≠ f.feature_in_target_name)
    (pre post : List String) :
    processLine max_indel_size l = .skipWarn ∧
    processLines max_indel_size (pre ++ l :: post) =
      processLines max_indel_size (pre ++ post) := by
  have hskip : processLine max_indel_size l = .skipWarn := by
    simp only [processLine, hf]
    rw [if_pos hn]
  refine ⟨hskip, ?_⟩
  induction pre with
  | nil => simp only [List.nil_append, processLines, hskip]
  | cons p ps ih =>
    simp only [List.cons_append, processLines]
    cases processLine max_indel_size p <;> simp [ih]

/-- Witness for `name_mismatch_skip` at a concrete input line whose
second query name differs from the first. -/
theorem name_mismatch_skip_witness :
    (parseFields
        "q\t0\t0\t10\t+\tt\t0\t0\t10\t.\t.\t.\tcg:Z:10M\tqX\t2\t6\tfeat\t.\t+\t.\tt\t2\t6\tfeat\t.\t+" =
      some
        { query_name := "q", query_start := 0, query_end := 10, query_strand := "+",
          target_name := "t", target_start := 0, target_end := 10, cigar := "10M",
          query_name_2 := "qX", feature_in_query_start := 2, feature_in_query_end := 6,
          feature_in_query_name := "feat", feature_in_query_strand := "+",
          target_name_2 := "t", feature_in_target_start := 2, feature_in_target_end := 6,
          feature_in_target_name := "feat", feature_in_target_strand := "+" } ∧
      ("q" : String) ≠ "qX") ∧
    (processLine 5
        "q\t0\t0\t10\t+\tt\t0\t0\t10\t.\t.\t.\tcg:Z:10M\tqX\t2\t6\tfeat\t.\t+\t.\tt\t2\t6\tfeat\t.\t+" =
      .skipWarn ∧
    processLines 5
        ([] ++
          "q\t0\t0\t10\t+\tt\t0\t0\t10\t.\t.\t.\tcg:Z:10M\tqX\t2\t6\tfeat\t.\t+\t.\tt\t2\t6\tfeat\t.\t+" ::
            []) =
      processLines 5 ([] ++ [])) :=
  ⟨⟨by decide, by decide⟩,
    name_mismatch_skip 5
      "q\t0\t0\t10\t+\tt\t0\t0\t10\t.\t.\t.\tcg:Z:10M\tqX\t2\t6\tfeat\t.\t+\t.\tt\t2\t6\tfeat\t.\t+"
      { query_name := "q", query_start := 0, query_end := 10, query_strand := "+",
        target_name := "t", target_start := 0, target_end := 10, cigar := "10M",
        query_name_2 := "qX", feature_in_query_start := 2, feature_in_query_end := 6,
        feature_in_query_name := "feat", feature_in_query_strand := "+",
        target_name_2 := "t", feature_in_target_start := 2, feature_in_target_end := 6,
        feature_in_target_name := "feat", feature_in_target_strand := "+" }
      (by decide) (by decide) [] []⟩

/-- Counterexample to claim C5: a structurally valid record whose CIGAR
field contains no valid operations at all is not an error anywhere in
the program: the record is processed and a normal output row is emitted
(there is no MalformedEncoding condition in the code). -/
theorem no_ops_cigar_emits_row :
    parse_cigar_ops "" = [] ∧
    processLine 5
        "q\t0\t0\t10\t+\tt\t0\t0\t10\t.\t.\t.\tcg:Z:\tq\t2\t6\tfeat\t.\t+\t.\tt\t2\t6\tfeat\t.\t+" =
      .emit
        { feature_name := "feat", query_name := "q", feature_in_query_start := 2,
          feature_in_query_end := 6, query_strand := "+", target_name := "t",
          feature_in_target_start := 2, feature_in_target_end := 6,
          counts :=
            { aligned_bases := 0, not_aligned_bases_in_query := 0,
              not_aligned_bases_in_target := 0, indels_in_query := 0,
              indels_in_target := 0, ignored_in_query := 4, ignored_in_target := 4 } } := by
  constructor <;> decide

/-- Claim C5 (amended): a CIGAR string that contains no valid operations
is never an error, in any circumstance: `count_aligned_bases` consumes
the empty operation stream, leaves every accumulated counter at zero,
and the two ignored counters equal the feature lengths. -/
theorem empty_cigar_no_error (query_start query_end : Int) (query_strand : Char)
    (target_start target_end : Int) (cigar : String)
    (fqs fqe fts fte mis : Int) (h : parse_cigar_ops cigar = []) :
    count_aligned_bases query_start query_end query_strand target_start target_end cigar
        fqs fqe fts fte mis =
      { aligned_bases := 0, not_aligned_bases_in_query := 0,
        not_aligned_bases_in_target := 0, indels_in_query := 0, indels_in_target := 0,
        ignored_in_query := fqe - fqs, ignored_in_target := fte - fts } := by
  simp only [count_aligned_bases, count_aligned_bases_ops, h, List.map_nil, runCigarOps,
    finalCounts, initLoopState]
  simp [Counts.mk.injEq]

/-- Witness for `empty_cigar_no_error` at a concrete input. -/
theorem empty_cigar_no_error_witness :
    parse_cigar_ops "xyz" = [] ∧
    count_aligned_bases 0 10 '+' 0 10 "xyz" 2 6 2 6 5 =
      { aligned_bases := 0, not_aligned_bases_in_query := 0,
        not_aligned_bases_in_target := 0, indels_in_query := 0, indels_in_target := 0,
        ignored_in_query := 6 - 2, ignored_in_target := 6 - 2 } :=
  ⟨by decide, empty_cigar_no_error 0 10 '+' 0 10 "xyz" 2 6 2 6 5 (by decide)⟩

end FeatureLevelReport
